import Mathlib

/-!
Verification development for the FluentFlow language-practice application
(src/App.tsx, src/services/gemini.ts, src/types.ts).

Strings are modelled as `List Char`.  JSON payload numbers are modelled as
integers: every `responseSchema` in the service file declares only
`Type.STRING`, `Type.BOOLEAN` and `Type.INTEGER` fields, so no fractional
numbers occur in the modelled contract.
-/

namespace FluentFlow

/-- Literal brace characters, kept as named constants. -/
def lbrace : Char := Char.ofNat 123

def rbrace : Char := Char.ofNat 125

/-- Runtime JSON values, as produced by a successful `JSON.parse`. -/
inductive Json where
  | null : Json
  | bool (b : Bool) : Json
  | num (n : Int) : Json
  | str (s : List Char) : Json
  | arr (xs : List Json) : Json
  | obj (fields : List (List Char × Json)) : Json

/-- JavaScript truthiness of a JSON value (`null`, `false`, `0` and the
empty string are falsy; arrays and objects are always truthy). -/
def Json.truthy : Json → Bool
  | .null => false
  | .bool b => b
  | .num n => decide (n ≠ 0)
  | .str s => decide (s ≠ [])
  | .arr _ => true
  | .obj _ => true

/-- JavaScript `||` applied to a possibly-undefined value (`none` models
`undefined`): the left operand if it is defined and truthy, otherwise the
default. -/
def jsOrOpt (o : Option Json) (d : Json) : Json :=
  match o with
  | some j => if j.truthy then j else d
  | none => d

/-- JavaScript `||` on a possibly-undefined string (e.g. `response.text || ""`). -/
def jsStrOr (o : Option (List Char)) (d : List Char) : List Char :=
  match o with
  | some s => if s = [] then d else s
  | none => d

/-- Property access `j.key` on a parsed JSON value: `none` models
`undefined`.  `JSON.parse` keeps the last of duplicate keys, hence the
reversed lookup. -/
def Json.get (j : Json) (key : List Char) : Option Json :=
  match j with
  | .obj fields => (fields.reverse.find? (fun p => p.1 == key)).map Prod.snd
  | _ => none

mutual

/-- JavaScript string coercion `String(v)` of a JSON value, as applied by
`localStorage.setItem` and string interpolation. -/
def Json.display : Json → List Char
  | .null => "null".toList
  | .bool true => "true".toList
  | .bool false => "false".toList
  | .num n => (toString n).toList
  | .str s => s
  | .arr xs => List.intercalate [','] (Json.displayList xs)
  | .obj _ => "[object Object]".toList

def Json.displayList : List Json → List (List Char)
  | [] => []
  | x :: xs => Json.display x :: Json.displayList xs

end

/-! JSON parser modelling `JSON.parse` (strict: the whole input must be a
single JSON value, with only whitespace around it). -/

/-- JSON whitespace. -/
def isJsonWs (c : Char) : Bool :=
  c = ' ' || c = '\t' || c = '\n' || c = '\r'

def skipWs (s : List Char) : List Char :=
  s.dropWhile isJsonWs

def hexVal (c : Char) : Option Nat :=
  if '0' ≤ c ∧ c ≤ '9' then some (c.toNat - '0'.toNat)
  else if 'a' ≤ c ∧ c ≤ 'f' then some (c.toNat - 'a'.toNat + 10)
  else if 'A' ≤ c ∧ c ≤ 'F' then some (c.toNat - 'A'.toNat + 10)
  else none

def escChar (c : Char) : Option Char :=
  if c = '"' then some '"'
  else if c = '\\' then some '\\'
  else if c = '/' then some '/'
  else if c = 'b' then some (Char.ofNat 8)
  else if c = 'f' then some (Char.ofNat 12)
  else if c = 'n' then some '\n'
  else if c = 'r' then some '\r'
  else if c = 't' then some '\t'
  else none

/-- Body of a JSON string literal, after the opening quote; returns the
decoded content and the remainder after the closing quote. -/
def parseStrBody : Nat → List Char → Option (List Char × List Char)
  | 0, _ => none
  | _, [] => none
  | fuel + 1, c :: rest =>
    if c = '"' then some ([], rest)
    else if c = '\\' then
      match rest with
      | [] => none
      | e :: rest2 =>
        if e = 'u' then
          match rest2 with
          | h1 :: h2 :: h3 :: h4 :: rest3 =>
            match hexVal h1, hexVal h2, hexVal h3, hexVal h4 with
            | some a, some b, some c3, some d =>
              match parseStrBody fuel rest3 with
              | some (s, r) => some (Char.ofNat (((a * 16 + b) * 16 + c3) * 16 + d) :: s, r)
              | none => none
            | _, _, _, _ => none
          | _ => none
        else
          match escChar e with
          | some ec =>
            match parseStrBody fuel rest2 with
            | some (s, r) => some (ec :: s, r)
            | none => none
          | none => none
    else if c.toNat < 32 then none
    else
      match parseStrBody fuel rest with
      | some (s, r) => some (c :: s, r)
      | none => none

def isDigit (c : Char) : Bool :=
  '0' ≤ c && c ≤ '9'

def parseDigits : Nat → List Char → Nat → Option (Nat × List Char)
  | 0, _, _ => none
  | _, [], acc => some (acc, [])
  | fuel + 1, c :: rest, acc =>
    if isDigit c then parseDigits fuel rest (acc * 10 + (c.toNat - '0'.toNat))
    else some (acc, c :: rest)

/-- Integer literal per the JSON grammar (no leading zeros; fractional and
exponent parts are outside the modelled contract and are rejected). -/
def parseIntLit (s : List Char) : Option (Int × List Char) :=
  match s with
  | '-' :: rest =>
    match parseIntLit rest with
    | some (n, r) => if 0 ≤ n then some (-n, r) else none
    | none => none
  | c :: rest =>
    if isDigit c then
      if c = '0' then
        match rest with
        | c2 :: _ => if isDigit c2 then none else some (0, rest)
        | [] => some (0, [])
      else
        match parseDigits (rest.length + 1) rest (c.toNat - '0'.toNat) with
        | some (n, r) => some ((n : Int), r)
        | none => none
    else none
  | [] => none

mutual

def parseValue : Nat → List Char → Option (Json × List Char)
  | 0, _ => none
  | fuel + 1, s =>
    match skipWs s with
    | [] => none
    | c :: rest =>
      if c = '"' then
        match parseStrBody (rest.length + 1) rest with
        | some (content, r) => some (Json.str content, r)
        | none => none
      else if c = lbrace then parseObjFields fuel rest
      else if c = '[' then parseArrElems fuel rest
      else if c = 't' then
        match rest with
        | 'r' :: 'u' :: 'e' :: r => some (Json.bool true, r)
        | _ => none
      else if c = 'f' then
        match rest with
        | 'a' :: 'l' :: 's' :: 'e' :: r => some (Json.bool false, r)
        | _ => none
      else if c = 'n' then
        match rest with
        | 'u' :: 'l' :: 'l' :: r => some (Json.null, r)
        | _ => none
      else
        match parseIntLit (c :: rest) with
        | some (n, r) => some (Json.num n, r)
        | none => none

/-- Object members, after the opening brace. -/
def parseObjFields : Nat → List Char → Option (Json × List Char)
  | 0, _ => none
  | fuel + 1, s =>
    match skipWs s with
    | [] => none
    | c :: rest =>
      if c = rbrace then some (Json.obj [], rest)
      else parseObjFieldsLoop fuel (c :: rest) []

/-- Remaining object members, expecting a key next. -/
def parseObjFieldsLoop : Nat → List Char → List (List Char × Json) → Option (Json × List Char)
  | 0, _, _ => none
  | fuel + 1, s, acc =>
    match skipWs s with
    | '"' :: rest =>
      match parseStrBody (rest.length + 1) rest with
      | some (key, afterKey) =>
        match skipWs afterKey with
        | ':' :: afterColon =>
          match parseValue fuel afterColon with
          | some (v, afterVal) =>
            match skipWs afterVal with
            | ',' :: afterComma => parseObjFieldsLoop fuel afterComma (acc ++ [(key, v)])
            | d :: afterBrace =>
              if d = rbrace then some (Json.obj (acc ++ [(key, v)]), afterBrace) else none
            | [] => none
          | none => none
        | _ => none
      | none => none
    | _ => none

/-- Array elements, after the opening bracket. -/
def parseArrElems : Nat → List Char → Option (Json × List Char)
  | 0, _ => none
  | fuel + 1, s =>
    match skipWs s with
    | [] => none
    | ']' :: rest => some (Json.arr [], rest)
    | other => parseArrElemsLoop fuel other []

def parseArrElemsLoop : Nat → List Char → List Json → Option (Json × List Char)
  | 0, _, _ => none
  | fuel + 1, s, acc =>
    match parseValue fuel s with
    | some (v, afterVal) =>
      match skipWs afterVal with
      | ',' :: afterComma => parseArrElemsLoop fuel afterComma (acc ++ [v])
      | ']' :: afterBracket => some (Json.arr (acc ++ [v]), afterBracket)
      | _ => none
    | none => none

end

/-- Model of `JSON.parse`: parse the whole input as a single JSON value. -/
def Json.parse (s : List Char) : Option Json :=
  match parseValue (2 * s.length + 2) s with
  | some (v, rest) => if skipWs rest = [] then some v else none
  | none => none

/-! The tolerant response cleaner `cleanJSON` from src/services/gemini.ts. -/

/-- Index of the last occurrence of a character. -/
def lastIdxOf (c : Char) (s : List Char) : Option Nat :=
  match s.reverse.findIdx? (fun d => d == c) with
  | some k => some (s.length - 1 - k)
  | none => none

/-- Model of the regex match `text.match(/\x7b[\s\S]*\x7d/)`: the regex is
greedy, so the (leftmost, longest) match runs from the first opening brace
that precedes the last closing brace up to that last closing brace. -/
def braceSpan (s : List Char) : Option (List Char) :=
  match lastIdxOf rbrace s with
  | none => none
  | some j =>
    match (s.take j).findIdx? (fun d => d == lbrace) with
    | none => none
    | some i => some ((s.take (j + 1)).drop i)

/-- The `cleanJSON` helper: return the text unchanged when it already parses
as strict JSON; otherwise substitute the brace-delimited regex match when one
exists; otherwise return the text unchanged. -/
def cleanJSON (text : List Char) : List Char :=
  match Json.parse text with
  | some _ => text
  | none =>
    match braceSpan text with
    | some m => m
    | none => text

/-- Modelled from the spec wording of the tolerant-parsing rule (claim C6):
the first well-formed object-shaped substring of the payload — scanning start
positions left to right and, for each, lengths shortest first, the first
substring that parses as a JSON object.  Used only to compare the spec
wording against `cleanJSON`. -/
def firstWellFormedObj (s : List Char) : Option (List Char) :=
  (List.range s.length).findSome? (fun i =>
    (List.range (s.length + 1)).findSome? (fun len =>
      match Json.parse ((s.drop i).take len) with
      | some (Json.obj _) => some ((s.drop i).take len)
      | _ => none))

/-! Data model (src/types.ts). -/

inductive Role where
  | user : Role
  | model : Role
deriving DecidableEq

structure Message where
  role : Role
  text : List Char
deriving DecidableEq

/-- Feedback as constructed at runtime in `evaluateTurn`.  The TypeScript
interface declares `isGood : boolean` etc., but the object literal copies
unvalidated parsed JSON fields, so each field is modelled as a possibly
undefined JSON value (`none` = `undefined`). -/
structure Feedback where
  isGood : Option Json
  correction : Option Json
  advice : Option Json
  score : Option Json

/-! Conversation Evaluator (src/services/gemini.ts).  Each exported function
awaits one remote `generateContent` call wrapped in `withTimeout`; the
awaited outcome is modelled by `RemoteOutcome`: either the promise rejected
(network error, thrown error or the 15000 ms timeout rejection) or it
resolved with a `response.text` that may be `undefined`. -/

/-- Timeout applied by `withTimeout` to every remote call (15000 ms). -/
def EVAL_TIMEOUT_MS : Nat := 15000

inductive RemoteOutcome where
  | failure (msg : List Char) : RemoteOutcome
  | success (text : Option (List Char)) : RemoteOutcome

/-- The default payload text of the final-evaluation path
(`response.text || "\x7b\x7d"`). -/
def emptyObjText : List Char := "\x7b\x7d".toList

/-- Result shape of `generatePlacementQuestion`. -/
structure GPQResult where
  question : Option Json
  isFinished : Bool
  level : Option Json

/-- Canned fallback of the placement question-generation path. -/
def fallbackQ : GPQResult :=
  { question := some (Json.str "Could you tell me about your hobbies?".toList)
    isFinished := false
    level := none }

/-- The `generatePlacementQuestion` service function.  At five or more user
turns it runs the final-evaluation path, otherwise the question-generation
path; every failure is caught locally. -/
def generatePlacementQuestion (history : List Message) (remote : RemoteOutcome) : GPQResult :=
  let userTurnCount := (history.filter (fun m => m.role == Role.user)).length
  if 5 ≤ userTurnCount then
    match remote with
    | .failure _ => { question := none, isFinished := true, level := some (Json.str "B1".toList) }
    | .success t =>
      let text := cleanJSON (jsStrOr t emptyObjText)
      match Json.parse text with
      | some json =>
        { question := none
          isFinished := true
          level := some (jsOrOpt (json.get "level".toList) (Json.str "A2".toList)) }
      | none => { question := none, isFinished := true, level := some (Json.str "B1".toList) }
  else
    match remote with
    | .failure _ => fallbackQ
    | .success t =>
      let text := cleanJSON (jsStrOr t [])
      if text = [] then fallbackQ
      else
        match Json.parse text with
        | some json => { question := json.get "question".toList, isFinished := false, level := none }
        | none => fallbackQ

/-- Canned fallback topic of `generateDailyTopic`. -/
def fallbackTopic (userLevel : List Char) : Json :=
  Json.obj
    [("id".toList, Json.str "fallback".toList),
     ("title".toList, Json.str "Casual Chat".toList),
     ("description".toList, Json.str "A friendly chat.".toList),
     ("scenario".toList, Json.str "We are friends.".toList),
     ("difficulty".toList, Json.str userLevel),
     ("openingLine".toList, Json.str "Hi there! How is your day going?".toList)]

/-- The `generateDailyTopic` service function.  The success path returns the
parsed JSON unvalidated (the source casts it to `DailyTopic` without field
checks), so the topic is modelled as a raw JSON value. -/
def generateDailyTopic (userLevel : List Char) (remote : RemoteOutcome) : Json :=
  match remote with
  | .failure _ => fallbackTopic userLevel
  | .success t =>
    let text := cleanJSON (jsStrOr t [])
    if text = [] then fallbackTopic userLevel
    else
      match Json.parse text with
      | some json => json
      | none => fallbackTopic userLevel

/-- Result shape of `evaluateTurn`. -/
structure ETResult where
  feedback : Feedback
  nextResponse : Json
  complete : Bool
  error : Option (List Char)

/-- Canned fallback of the `evaluateTurn` catch branch. -/
def etFallback (msg : List Char) : ETResult :=
  { feedback :=
      { isGood := some (Json.bool true)
        correction := none
        advice := some (Json.str "Good effort!".toList)
        score := some (Json.num 3) }
    nextResponse := Json.str "Could you rephrase that? I didn\x27t quite catch it.".toList
    complete := false
    error := some msg }

/-- The `evaluateTurn` service function.  With five or more user turns in the
passed history it short-circuits to the completion result without a remote
call; otherwise it evaluates the turn, catching every failure locally. -/
def evaluateTurn (topic : Json) (history : List Message) (lastUserMessage : List Char)
    (userLevel : List Char) (remote : RemoteOutcome) : ETResult :=
  let userTurns := (history.filter (fun m => m.role == Role.user)).length
  if 5 ≤ userTurns then
    { feedback :=
        { isGood := some (Json.bool true)
          correction := none
          advice := some (Json.str "Session complete! Great job.".toList)
          score := some (Json.num 5) }
      nextResponse := Json.str "Thank you for chatting with me! See you tomorrow.".toList
      complete := true
      error := none }
  else
    match remote with
    | .failure msg => etFallback msg
    | .success t =>
      let text := cleanJSON (jsStrOr t [])
      if text = [] then etFallback "Error: Empty response".toList
      else
        match Json.parse text with
        | none => etFallback "SyntaxError".toList
        | some json =>
          { feedback :=
              { isGood := json.get "isGood".toList
                correction := json.get "correction".toList
                advice := some (jsOrOpt (json.get "advice".toList)
                  (Json.str "Review your sentence structure.".toList))
                score := json.get "score".toList }
            nextResponse := jsOrOpt (json.get "nextResponse".toList)
              (Json.str "I see. Please continue.".toList)
            complete := false
            error := none }

/-! Turn-Taking Controller (src/App.tsx). -/

inductive AppMode where
  | LANDING : AppMode
  | ONBOARDING : AppMode
  | DASHBOARD : AppMode
  | PRACTICE : AppMode
  | SUMMARY : AppMode
deriving DecidableEq

inductive SpeakingState where
  | IDLE : SpeakingState
  | LISTENING : SpeakingState
  | PROCESSING : SpeakingState
  | SPEAKING : SpeakingState
deriving DecidableEq

/-- Watchdog ceiling: the `setTimeout` delay in the watchdog effect (16000 ms,
slightly longer than the 15000 ms request timeout). -/
def WATCHDOG_MS : Nat := 16000

/-- Grace period for text-to-speech start confirmation: the `startTimeout`
delay inside `speakText` (2000 ms). -/
def TTS_START_GRACE_MS : Nat := 2000

/-- The React component state of `App`, together with the `processingRef`
re-entrancy guard and the single persisted `localStorage` key
(`fluent_level`, `none` = key absent).  The debug log list and the
`recognitionRef`/`synthRef` adapter handles are presentation-layer details
and are not part of the model. -/
structure AppState where
  mode : AppMode
  userLevel : List Char
  speakingState : SpeakingState
  messages : List Message
  currentTopic : Option Json
  lastFeedback : Option Feedback
  transcript : List Char
  processingRef : Bool
  storageLevel : Option (List Char)
  showLevelSelector : Bool

/-- JavaScript `String.prototype.trim` (whitespace stripped at both ends). -/
def jsTrim (s : List Char) : List Char :=
  (((s.dropWhile isJsonWs).reverse).dropWhile isJsonWs).reverse

/-- The synchronous result of `speakText`: `false` when the text is falsy or
when constructing/queueing the utterance throws (`ttsOk = false`), `true`
when speech synthesis was successfully initiated.  The utterance lifecycle
callbacks it arms are modelled by the run events below. -/
def speakText (ttsOk : Bool) (text : Json) : Bool :=
  if text.truthy = false then false else ttsOk

/-- The `saveLevel` helper: persist the level and set the in-memory level. -/
def saveLevel (lvl : List Char) (s : AppState) : AppState :=
  { s with storageLevel := some lvl, userLevel := lvl }

/-- The load-level effect run once on mount: a present, non-empty persisted
level is restored and the mode jumps to the dashboard (`if (savedLevel)` is
a truthiness test, so the empty string is treated as absent). -/
def loadLevelEffect (s : AppState) : AppState :=
  match s.storageLevel with
  | some lvl => if lvl = [] then s else { s with userLevel := lvl, mode := AppMode.DASHBOARD }
  | none => s

/-- Initial component state for a fresh startup over the given persisted
storage contents. -/
def initialAppState (storage : Option (List Char)) : AppState :=
  { mode := AppMode.LANDING
    userLevel := "A2".toList
    speakingState := SpeakingState.IDLE
    messages := []
    currentTopic := none
    lastFeedback := none
    transcript := []
    processingRef := false
    storageLevel := storage
    showLevelSelector := false }

/-- A fresh startup: initial state followed by the load-level effect. -/
def startup (storage : Option (List Char)) : AppState :=
  loadLevelEffect (initialAppState storage)

/-- The `retakeAssessment` handler: remove the persisted key, reset the
in-memory level to A2, return to the landing view, hide the level selector. -/
def retakeAssessment (s : AppState) : AppState :=
  { s with storageLevel := none
           userLevel := "A2".toList
           mode := AppMode.LANDING
           showLevelSelector := false }

/-- External interactions available to one `handleSubmitAnswer` invocation:
the outcome of the (at most one) remote Evaluator call and whether queueing
text-to-speech succeeds. -/
structure SubmitEnv where
  remote : RemoteOutcome
  ttsOk : Bool

/-- Observable actions of one `handleSubmitAnswer` invocation: how many
Evaluator service calls it issued and the final value of its local
`speechStarted` flag. -/
structure SubmitTrace where
  evalCalls : Nat
  speechStarted : Bool
deriving DecidableEq

/-- The mode-specific `try` body of `handleSubmitAnswer`, applied to the
state `s3` that already has the guard set, `speakingState = PROCESSING` and
the user message appended.  Returns the updated state, the `speechStarted`
flag and the number of Evaluator service calls issued.  `origMode` is the
closure-captured mode at invocation time. -/
def submitTryBody (s3 : AppState) (origMode : AppMode) (text : List Char)
    (newHistory : List Message) (env : SubmitEnv) : AppState × Bool × Nat :=
  if origMode = AppMode.ONBOARDING then
    let result := generatePlacementQuestion newHistory env.remote
    if result.isFinished then
      let lvl := (jsOrOpt result.level (Json.str "A2".toList)).display
      let s4 := saveLevel lvl s3
      ({ s4 with mode := AppMode.DASHBOARD }, false, 1)
    else
      match result.question with
      | some q =>
        if q.truthy then
          let s4 := { s3 with
            messages := s3.messages ++ [{ role := Role.model, text := q.display }] }
          (s4, speakText env.ttsOk q, 1)
        else (s3, false, 1)
      | none => (s3, false, 1)
  else if origMode = AppMode.PRACTICE then
    match s3.currentTopic with
    | some topic =>
      let result := evaluateTurn topic newHistory text s3.userLevel env.remote
      let s4 := { s3 with lastFeedback := some result.feedback }
      if result.complete = false then
        if result.nextResponse.truthy then
          let s5 := { s4 with
            messages := s4.messages ++
              [{ role := Role.model, text := result.nextResponse.display }] }
          (s5, speakText env.ttsOk result.nextResponse, 1)
        else
          let fb := "I\x27m listening, could you continue?".toList
          let s5 := { s4 with
            messages := s4.messages ++ [{ role := Role.model, text := fb }] }
          (s5, speakText env.ttsOk (Json.str fb), 1)
      else
        ({ s4 with mode := AppMode.SUMMARY },
         speakText env.ttsOk
           (Json.str "Great session! You\x27ve completed the practice.".toList), 1)
    | none => (s3, false, 0)
  else (s3, false, 0)

/-- The `finally` block of `handleSubmitAnswer`: release the guard
unconditionally and, when speech did not start and the closure-captured
mode is not the dashboard, fall back to Idle. -/
def submitFinallyStep (origMode : AppMode) (p : AppState × Bool × Nat) : AppState × SubmitTrace :=
  let s6 := { p.1 with processingRef := false }
  let s7 :=
    if p.2.1 = false ∧ origMode ≠ AppMode.DASHBOARD then
      { s6 with speakingState := SpeakingState.IDLE }
    else s6
  (s7, { evalCalls := p.2.2, speechStarted := p.2.1 })

/-- State reached by the synchronous prefix of a non-guarded, non-empty
submission: transcript cleared, guard set, Processing entered, user message
appended. -/
def submitEntryState (s0 : AppState) : AppState :=
  { s0 with
      transcript := ([] : List Char)
      processingRef := true
      speakingState := SpeakingState.PROCESSING
      messages := s0.messages ++ [{ role := Role.user, text := jsTrim s0.transcript }] }

/-- The `handleSubmitAnswer` callback.  Mirrors the source line by line:
trim and test the transcript; clear the transcript; re-entrancy guard test;
set the guard and enter Processing; append the user message; run the
mode-specific `try` body; then the `finally` block.  The `catch` branch is
unreachable in the model because the service functions never reject.  The
closure-captured `mode` is the mode at invocation time (`s0.mode`), not any
mode set inside the branch. -/
def handleSubmitAnswer (s0 : AppState) (env : SubmitEnv) : AppState × SubmitTrace :=
  let text := jsTrim s0.transcript
  if text = [] then (s0, { evalCalls := 0, speechStarted := false })
  else
    let s1 := { s0 with transcript := ([] : List Char) }
    if s1.processingRef then (s1, { evalCalls := 0, speechStarted := false })
    else
      let newHistory := s0.messages ++ [{ role := Role.user, text := text }]
      submitFinallyStep s0.mode (submitTryBody (submitEntryState s0) s0.mode text newHistory env)

/-! Timed run model of the interaction state machine while a submission is
being processed.  `WdState` carries the two fields the relevant handlers
touch.  `RunEv` enumerates the event handlers of src/App.tsx that can change
`speakingState` while it is `PROCESSING`: the watchdog callback, the
utterance lifecycle callbacks armed by `speakText` (`onstart`, `onend`,
`onerror`), the 2000 ms start-grace timeout inside `speakText` (whose
comparison reads the render-captured `speakingState` closure value), and the
`finally` block of `handleSubmitAnswer`.  The speech-recognition handlers
cannot run here: the microphone button is disabled while `speakingState` is
`PROCESSING` or `SPEAKING`, and the recognition error/end handlers only ever
set `IDLE`, which `ttsOnError`/`ttsOnEnd` already cover.  `idleTick` is a
tick in which no handler runs. -/

structure WdState where
  speakingState : SpeakingState
  processingRef : Bool
deriving DecidableEq

inductive RunEv where
  | watchdogFire : RunEv
  | ttsOnStart : RunEv
  | ttsOnEnd : RunEv
  | ttsOnError : RunEv
  | ttsStartGrace (captured : SpeakingState) : RunEv
  | submitCleanup (speechStarted : Bool) (mode : AppMode) : RunEv
  | idleTick : RunEv
deriving DecidableEq

/-- Effect of each handler on the watched state, read off the source. -/
def applyHandler (s : WdState) (e : RunEv) : WdState :=
  match e with
  | .watchdogFire => { speakingState := SpeakingState.IDLE, processingRef := false }
  | .ttsOnStart => { s with speakingState := SpeakingState.SPEAKING }
  | .ttsOnEnd => { s with speakingState := SpeakingState.IDLE }
  | .ttsOnError => { s with speakingState := SpeakingState.IDLE }
  | .ttsStartGrace captured =>
    if captured ≠ SpeakingState.SPEAKING then { s with speakingState := SpeakingState.IDLE }
    else s
  | .submitCleanup speechStarted mode =>
    let s1 := { s with processingRef := false }
    if speechStarted = false ∧ mode ≠ AppMode.DASHBOARD then
      { s1 with speakingState := SpeakingState.IDLE }
    else s1
  | .idleTick => s

/-- State after `t` one-millisecond ticks, starting from `init`, where
`events t` is the handler that runs during tick `t`. -/
def runFrom (init : WdState) (events : Nat → RunEv) : Nat → WdState
  | 0 => init
  | t + 1 => applyHandler (runFrom init events t) (events t)

/-- Scheduling law of the watchdog effect: the effect arms a `WATCHDOG_MS`
timer whenever `speakingState` becomes `PROCESSING` and cancels it on any
change, so along any interval that stays `PROCESSING` for the full ceiling
the watchdog callback runs at its end. -/
def watchdogScheduled (init : WdState) (events : Nat → RunEv) : Prop :=
  ∀ t0 : Nat,
    (∀ dt : Nat, dt ≤ WATCHDOG_MS →
      (runFrom init events (t0 + dt)).speakingState = SpeakingState.PROCESSING) →
    events (t0 + WATCHDOG_MS) = RunEv.watchdogFire

/-! Evaluator call-flight machine for the re-entrancy invariant.  One state
tracks the guard flag and the number of Evaluator service calls currently in
flight.  `submitAttempt` is the synchronous prefix of `handleSubmitAnswer`
with a non-empty transcript (a guarded attempt is a no-op, an unguarded one
sets the guard and starts a call); `settleCall` is the completion of an
in-flight call together with its `finally` block; `watchdogClear` is the
watchdog callback clearing the guard. -/

structure FlightState where
  guard : Bool
  inFlight : Nat
deriving DecidableEq

inductive FlightEv where
  | submitAttempt : FlightEv
  | settleCall : FlightEv
  | watchdogClear : FlightEv
deriving DecidableEq

def flightStep (s : FlightState) (e : FlightEv) : FlightState :=
  match e with
  | .submitAttempt => if s.guard then s else { guard := true, inFlight := s.inFlight + 1 }
  | .settleCall => { guard := false, inFlight := s.inFlight - 1 }
  | .watchdogClear => { s with guard := false }

def flightInit : FlightState := { guard := false, inFlight := 0 }

def flightRunFrom (s : FlightState) (tr : List FlightEv) : FlightState :=
  tr.foldl flightStep s

def flightRun (tr : List FlightEv) : FlightState :=
  flightRunFrom flightInit tr

/-- Well-formedness of an event trace: a call can only settle while it is in
flight, and the watchdog callback never runs while a call is in flight.  The
latter is the timing guarantee of the source: every service call is wrapped
in `withTimeout` and so settles (running its `finally`) within
`EVAL_TIMEOUT_MS = 15000` ms of the submit that issued it, while the watchdog
fires only after `WATCHDOG_MS = 16000` ms of continuous Processing, which
begins no earlier than that submit (the submit button is only rendered in
the Idle reviewing state). -/
def flightValidFrom (s : FlightState) : List FlightEv → Bool
  | [] => true
  | e :: rest =>
    (match e with
     | FlightEv.submitAttempt => true
     | FlightEv.settleCall => decide (1 ≤ s.inFlight)
     | FlightEv.watchdogClear => decide (s.inFlight = 0)) &&
    flightValidFrom (flightStep s e) rest

def flightValid (tr : List FlightEv) : Bool :=
  flightValidFrom flightInit tr

/-! Concrete fixtures used by the theorems below. -/

/-- Component state at the start of a placement assessment, after
`startOnboarding` has spoken the first question. -/
def c3start : AppState :=
  { mode := AppMode.ONBOARDING
    userLevel := "A2".toList
    speakingState := SpeakingState.IDLE
    messages := [⟨Role.model, "Hi! Please introduce yourself.".toList⟩]
    currentTopic := none
    lastFeedback := none
    transcript := []
    processingRef := false
    storageLevel := none
    showLevelSelector := false }

/-- Set the pending transcript (the user spoke) and submit. -/
def submitWith (s : AppState) (t : List Char) (env : SubmitEnv) : AppState :=
  (handleSubmitAnswer { s with transcript := t } env).1

/-- A well-formed question response payload. -/
def qPayload : List Char := "\x7b\"question\":\"Q next\"\x7d".toList

/-- The turn-5 evaluation response payload of the spec scenario. -/
def lvlPayload : List Char := "\x7b\"level\":\"B2\"\x7d".toList

def qEnv : SubmitEnv := { remote := RemoteOutcome.success (some qPayload), ttsOk := true }

def lvlEnv : SubmitEnv := { remote := RemoteOutcome.success (some lvlPayload), ttsOk := true }

/-- Five submitted user turns, the first four answered with a question, the
fifth with the `level: B2` final evaluation. -/
def c3final : AppState :=
  submitWith
    (submitWith
      (submitWith
        (submitWith
          (submitWith c3start "one a".toList qEnv)
          "two b".toList qEnv)
        "three c".toList qEnv)
      "four d".toList qEnv)
    "five e".toList lvlEnv

/-- A state with a submission already in flight and a new transcript pending. -/
def c2state : AppState :=
  { c3start with transcript := "hello".toList, processingRef := true }

def c2env : SubmitEnv := { remote := RemoteOutcome.failure "offline".toList, ttsOk := true }

/-- A state whose pending transcript is whitespace only. -/
def c10state : AppState := { c3start with transcript := "   ".toList }

/-- A dashboard state with a finished assessment and a non-empty history. -/
def c8state : AppState :=
  { c3start with
      mode := AppMode.DASHBOARD
      userLevel := "B2".toList
      storageLevel := some "B2".toList
      messages := [⟨Role.user, "hi there".toList⟩, ⟨Role.model, "Great!".toList⟩] }

/-- The malformed payload of the C6 analysis: two object-shaped substrings
separated by junk. -/
def c6raw : List Char := "x\x7b\"a\":1\x7dy\x7b\"b\":2\x7d".toList

/-- A practice-mode state with four user turns already in the history. -/
def c4state : AppState :=
  { c3start with
      mode := AppMode.PRACTICE
      currentTopic := some (fallbackTopic "A2".toList)
      messages := [⟨Role.user, "a".toList⟩, ⟨Role.user, "b".toList⟩,
                   ⟨Role.user, "c".toList⟩, ⟨Role.user, "d".toList⟩]
      transcript := "e".toList }

/-- A practice-mode state at the first turn. -/
def c4state1 : AppState :=
  { c3start with
      mode := AppMode.PRACTICE
      currentTopic := some (fallbackTopic "A2".toList)
      messages := []
      transcript := "hi".toList }

/-! Shared helper lemmas about the submit handler. -/

set_option maxRecDepth 100000

theorem submitFinallyStep_guard (m : AppMode) (p : AppState × Bool × Nat) :
    (submitFinallyStep m p).1.processingRef = false := by
  unfold submitFinallyStep
  split <;> rfl

theorem submitFinallyStep_trace (m : AppMode) (p : AppState × Bool × Nat) :
    (submitFinallyStep m p).2 = { evalCalls := p.2.2, speechStarted := p.2.1 } := rfl

theorem submitFinallyStep_speaking (m : AppMode) (p : AppState × Bool × Nat) :
    (submitFinallyStep m p).1.speakingState = SpeakingState.IDLE ∨
    (submitFinallyStep m p).1.speakingState = p.1.speakingState := by
  unfold submitFinallyStep
  split
  · exact Or.inl rfl
  · exact Or.inr rfl

theorem submitFinallyStep_speaking_idle (m : AppMode) (p : AppState × Bool × Nat)
    (h1 : p.2.1 = false) (h2 : m ≠ AppMode.DASHBOARD) :
    (submitFinallyStep m p).1.speakingState = SpeakingState.IDLE := by
  unfold submitFinallyStep
  simp [h1, h2]

theorem submitFinallyStep_mode (m : AppMode) (p : AppState × Bool × Nat) :
    (submitFinallyStep m p).1.mode = p.1.mode ∧
    (submitFinallyStep m p).1.messages = p.1.messages := by
  unfold submitFinallyStep
  split
  · exact ⟨rfl, rfl⟩
  · exact ⟨rfl, rfl⟩

theorem submitTryBody_speaking (s3 : AppState) (m : AppMode) (text : List Char)
    (nh : List Message) (env : SubmitEnv) :
    (submitTryBody s3 m text nh env).1.speakingState = s3.speakingState := by
  unfold submitTryBody
  dsimp only
  repeat' split
  all_goals rfl

theorem handleSubmitAnswer_run (s0 : AppState) (env : SubmitEnv)
    (ht : jsTrim s0.transcript ≠ []) (hg : s0.processingRef = false) :
    handleSubmitAnswer s0 env =
      submitFinallyStep s0.mode
        (submitTryBody (submitEntryState s0) s0.mode (jsTrim s0.transcript)
          (s0.messages ++ [{ role := Role.user, text := jsTrim s0.transcript }]) env) := by
  unfold handleSubmitAnswer
  simp [ht, hg]

theorem jsOrOpt_truthy (o : Option Json) (d : Json) (h : d.truthy = true) :
    (jsOrOpt o d).truthy = true := by
  cases o with
  | none => simp [jsOrOpt, h]
  | some j =>
    by_cases hj : j.truthy = true
    · simp [jsOrOpt, hj]
    · simp [jsOrOpt, hj, h]

theorem submitTryBody_practice_calls (s3 : AppState) (text : List Char) (nh : List Message)
    (env : SubmitEnv) (topic : Json) (h : s3.currentTopic = some topic) :
    (submitTryBody s3 AppMode.PRACTICE text nh env).2.2 = 1 := by
  unfold submitTryBody
  simp only [h]
  repeat' split
  all_goals simp_all

theorem submitTryBody_practice_complete (s3 : AppState) (text : List Char) (nh : List Message)
    (env : SubmitEnv) (topic : Json) (h : s3.currentTopic = some topic)
    (hc : (evaluateTurn topic nh text s3.userLevel env.remote).complete = true) :
    (submitTryBody s3 AppMode.PRACTICE text nh env).1.mode = AppMode.SUMMARY ∧
    (submitTryBody s3 AppMode.PRACTICE text nh env).1.messages = s3.messages := by
  unfold submitTryBody
  simp [h, hc]

theorem userTurns_append_user (h : List Message) (t : List Char) :
    ((h ++ [({ role := Role.user, text := t } : Message)]).filter
        (fun m => m.role == Role.user)).length =
      (h.filter (fun m => m.role == Role.user)).length + 1 := by
  simp [List.filter_append]

theorem applyHandler_from_processing (s : WdState) (e : RunEv)
    (h : s.speakingState = SpeakingState.PROCESSING) :
    (applyHandler s e).speakingState = SpeakingState.PROCESSING ∨
    (applyHandler s e).speakingState = SpeakingState.IDLE ∨
    (applyHandler s e).speakingState = SpeakingState.SPEAKING := by
  cases e with
  | watchdogFire => right; left; rfl
  | ttsOnStart => right; right; rfl
  | ttsOnEnd => right; left; rfl
  | ttsOnError => right; left; rfl
  | ttsStartGrace captured =>
    by_cases hc : captured = SpeakingState.SPEAKING
    · left; simp [applyHandler, hc, h]
    · right; left; simp [applyHandler, hc]
  | submitCleanup sp m =>
    by_cases hcond : sp = false ∧ m ≠ AppMode.DASHBOARD
    · right; left; simp [applyHandler, hcond]
    · left
      simp only [applyHandler]
      rw [if_neg hcond]
      exact h
  | idleTick => left; exact h

/-- Invariant preservation of the Evaluator call-flight machine: along any
well-formed trace the in-flight count stays at most one, and whenever the
guard is clear no call is in flight. -/
theorem flight_inv_preserved (tr : List FlightEv) :
    ∀ s : FlightState, s.inFlight ≤ 1 → (s.guard = false → s.inFlight = 0) →
      flightValidFrom s tr = true →
      (flightRunFrom s tr).inFlight ≤ 1 ∧
      ((flightRunFrom s tr).guard = false → (flightRunFrom s tr).inFlight = 0) := by
  induction tr with
  | nil => intro s h1 h2 _; exact ⟨h1, h2⟩
  | cons e rest ih =>
    intro s h1 h2 hv
    simp only [flightValidFrom, Bool.and_eq_true] at hv
    obtain ⟨he, hrest⟩ := hv
    have hstep : (flightStep s e).inFlight ≤ 1 ∧
        ((flightStep s e).guard = false → (flightStep s e).inFlight = 0) := by
      cases e with
      | submitAttempt =>
        by_cases hg : s.guard
        · simp [flightStep, hg, h1, h2]
        · simp [flightStep, hg, h2 (by simpa using hg)]
      | settleCall =>
        simp only [decide_eq_true_eq] at he
        simp only [flightStep]
        constructor
        · omega
        · intro _; omega
      | watchdogClear =>
        simp only [decide_eq_true_eq] at he
        simp [flightStep, he]
    exact ih (flightStep s e) hstep.1 hstep.2 hrest

/-! Claim theorems. -/

/-- Claim C1: for every Evaluator call made from a submission, whatever the
outcome, the interaction state machine leaves Processing and reaches Idle or
Speaking within the watchdog ceiling; any continuous stay in Processing for
the full ceiling forcibly resets the state to Idle and clears the
re-entrancy guard.  Stated over the timed run model: (1) a window that stays
Processing through the ceiling ends with the watchdog forcing Idle and
clearing the guard; (2) from any Processing instant, Idle or Speaking is
reached within the ceiling plus one tick; (3) the submission itself always
ends in Idle or still-Processing (never Listening or Speaking directly), so
part (2) applies to every submission outcome. -/
theorem processing_bounded_by_watchdog
    (init : WdState) (events : Nat → RunEv) (hsched : watchdogScheduled init events) (t0 : Nat) :
    ((∀ dt, dt ≤ WATCHDOG_MS →
        (runFrom init events (t0 + dt)).speakingState = SpeakingState.PROCESSING) →
      (runFrom init events (t0 + WATCHDOG_MS + 1)).speakingState = SpeakingState.IDLE ∧
      (runFrom init events (t0 + WATCHDOG_MS + 1)).processingRef = false)
    ∧ ((runFrom init events t0).speakingState = SpeakingState.PROCESSING →
      ∃ dt, dt ≤ WATCHDOG_MS + 1 ∧
        ((runFrom init events (t0 + dt)).speakingState = SpeakingState.IDLE ∨
         (runFrom init events (t0 + dt)).speakingState = SpeakingState.SPEAKING))
    ∧ (∀ s env, jsTrim s.transcript ≠ [] → s.processingRef = false →
        ((handleSubmitAnswer s env).1.speakingState = SpeakingState.IDLE ∨
         (handleSubmitAnswer s env).1.speakingState = SpeakingState.PROCESSING)) := by
  have hforce : (∀ dt, dt ≤ WATCHDOG_MS →
      (runFrom init events (t0 + dt)).speakingState = SpeakingState.PROCESSING) →
      (runFrom init events (t0 + WATCHDOG_MS + 1)).speakingState = SpeakingState.IDLE ∧
      (runFrom init events (t0 + WATCHDOG_MS + 1)).processingRef = false := by
    intro hall
    have hev := hsched t0 hall
    have hstep : runFrom init events (t0 + WATCHDOG_MS + 1) =
        applyHandler (runFrom init events (t0 + WATCHDOG_MS)) (events (t0 + WATCHDOG_MS)) := rfl
    rw [hstep, hev]
    exact ⟨rfl, rfl⟩
  refine ⟨hforce, ?_, ?_⟩
  · intro h0
    by_cases hall : ∀ dt, dt ≤ WATCHDOG_MS →
        (runFrom init events (t0 + dt)).speakingState = SpeakingState.PROCESSING
    · exact ⟨WATCHDOG_MS + 1, le_refl _, Or.inl (hforce hall).1⟩
    · push_neg at hall
      obtain ⟨dtw, hdtw, hne⟩ := hall
      have hex : ∃ dt, (runFrom init events (t0 + dt)).speakingState ≠ SpeakingState.PROCESSING :=
        ⟨dtw, hne⟩
      have hk := Nat.find_spec hex
      have hkle : Nat.find hex ≤ dtw := Nat.find_min' hex hne
      cases hk0 : Nat.find hex with
      | zero =>
        rw [hk0] at hk
        exact absurd h0 hk
      | succ j =>
        rw [hk0] at hk hkle
        have hj : (runFrom init events (t0 + j)).speakingState = SpeakingState.PROCESSING := by
          have hmin := Nat.find_min hex (m := j) (by omega)
          exact not_not.mp hmin
        have hstep : runFrom init events (t0 + (j + 1)) =
            applyHandler (runFrom init events (t0 + j)) (events (t0 + j)) := rfl
        have hcases := applyHandler_from_processing _ (events (t0 + j)) hj
        rw [← hstep] at hcases
        rcases hcases with hP | hI | hS
        · exact absurd hP hk
        · exact ⟨j + 1, by omega, Or.inl hI⟩
        · exact ⟨j + 1, by omega, Or.inr hS⟩
  · intro s env h1 h2
    rw [handleSubmitAnswer_run s env h1 h2]
    rcases submitFinallyStep_speaking s.mode
        (submitTryBody (submitEntryState s) s.mode (jsTrim s.transcript)
          (s.messages ++ [{ role := Role.user, text := jsTrim s.transcript }]) env) with hI | hEq
    · exact Or.inl hI
    · right
      rw [hEq, submitTryBody_speaking]
      rfl

def wdInitEx : WdState := { speakingState := SpeakingState.PROCESSING, processingRef := true }

def wdEventsEx : Nat → RunEv := fun _ => RunEv.watchdogFire

/-- Concrete witness for claim C1. -/
theorem processing_bounded_by_watchdog_witness :
    watchdogScheduled wdInitEx wdEventsEx ∧
    (runFrom wdInitEx wdEventsEx 0).speakingState = SpeakingState.PROCESSING ∧
    (∃ dt, dt ≤ WATCHDOG_MS + 1 ∧
      ((runFrom wdInitEx wdEventsEx (0 + dt)).speakingState = SpeakingState.IDLE ∨
       (runFrom wdInitEx wdEventsEx (0 + dt)).speakingState = SpeakingState.SPEAKING)) :=
  ⟨fun _ _ => rfl, rfl,
   (processing_bounded_by_watchdog wdInitEx wdEventsEx (fun _ _ => rfl) 0).2.1 rfl⟩

/-- Claim C2, counterexample: while a submission is in flight (guard set), a
further submit call is not a complete no-op — it clears the pending
transcript before the guard test. -/
theorem guarded_submit_clears_transcript :
    (handleSubmitAnswer c2state c2env).1.transcript ≠ c2state.transcript := by decide

/-- Claim C2, amended: while a submission is in flight, a further submit
call changes nothing except clearing the pending transcript — it appends no
message, issues no Evaluator call and leaves the guard alone; the guard set
by a submission is always released by its cleanup; and along any well-formed
trace of submit attempts, call settlements and watchdog firings, at most one
Evaluator call is ever in flight (the request timeout being strictly below
the watchdog ceiling). -/
theorem submit_guard_discipline :
    (∀ s env, s.processingRef = true →
        handleSubmitAnswer s env =
          (if jsTrim s.transcript = [] then s else { s with transcript := ([] : List Char) },
           { evalCalls := 0, speechStarted := false }))
    ∧ (∀ s env, (handleSubmitAnswer s env).1.processingRef = s.processingRef ∨
        (handleSubmitAnswer s env).1.processingRef = false)
    ∧ (∀ tr, flightValid tr = true → (flightRun tr).inFlight ≤ 1)
    ∧ EVAL_TIMEOUT_MS < WATCHDOG_MS := by
  refine ⟨?_, ?_, ?_, by decide⟩
  · intro s env h
    unfold handleSubmitAnswer
    by_cases ht : jsTrim s.transcript = [] <;> simp [ht, h]
  · intro s env
    unfold handleSubmitAnswer
    by_cases ht : jsTrim s.transcript = []
    · simp [ht]
    · by_cases hg : s.processingRef
      · simp [ht, hg]
      · simp only [ht, if_false, hg]
        right
        exact submitFinallyStep_guard _ _
  · intro tr h
    exact (flight_inv_preserved tr flightInit (by decide) (fun _ => rfl) h).1

/-- Concrete witness for claim C2. -/
theorem submit_guard_discipline_witness :
    c2state.processingRef = true ∧
    (handleSubmitAnswer c2state c2env).2.evalCalls = 0 ∧
    flightValid [FlightEv.submitAttempt, FlightEv.submitAttempt, FlightEv.settleCall] = true ∧
    (flightRun [FlightEv.submitAttempt, FlightEv.submitAttempt, FlightEv.settleCall]).inFlight ≤ 1 := by
  refine ⟨rfl, ?_, by decide, submit_guard_discipline.2.2.1 _ (by decide)⟩
  rw [submit_guard_discipline.1 c2state c2env rfl]

def hist5 : List Message :=
  [⟨Role.user, "a".toList⟩, ⟨Role.user, "b".toList⟩, ⟨Role.user, "c".toList⟩,
   ⟨Role.user, "d".toList⟩, ⟨Role.user, "e".toList⟩]

/-- Claim C3: in placement mode user turns are counted; with five or more
user turns in the history the Evaluator call is the final evaluation
(finished, a level, no question), with fewer it returns the next question
and is not finished; and the concrete five-submission scenario ending with
the response containing level B2 persists level B2 and moves to the
dashboard view. -/
theorem placement_turns_counted_final_at_five :
    (∀ history remote, 5 ≤ (history.filter (fun m => m.role == Role.user)).length →
        (generatePlacementQuestion history remote).isFinished = true ∧
        (generatePlacementQuestion history remote).question = none ∧
        (generatePlacementQuestion history remote).level.isSome = true)
    ∧ (∀ history remote, (history.filter (fun m => m.role == Role.user)).length < 5 →
        (generatePlacementQuestion history remote).isFinished = false ∧
        (generatePlacementQuestion history remote).level = none)
    ∧ (∀ history, (history.filter (fun m => m.role == Role.user)).length < 5 →
        (generatePlacementQuestion history (RemoteOutcome.success (some qPayload))).question =
          some (Json.str "Q next".toList))
    ∧ (c3final.storageLevel = some "B2".toList ∧
       c3final.userLevel = "B2".toList ∧
       c3final.mode = AppMode.DASHBOARD) := by
  refine ⟨?_, ?_, ?_, by decide, by decide, by decide⟩
  · intro history remote hc
    unfold generatePlacementQuestion
    rw [if_pos (by omega)]
    cases remote with
    | failure m => exact ⟨rfl, rfl, rfl⟩
    | success t =>
      cases hpp : Json.parse (cleanJSON (jsStrOr t emptyObjText)) with
      | some json => simp [hpp]
      | none => simp [hpp]
  · intro history remote hc
    unfold generatePlacementQuestion
    rw [if_neg (by omega)]
    cases remote with
    | failure m => exact ⟨rfl, rfl⟩
    | success t =>
      by_cases he : cleanJSON (jsStrOr t []) = []
      · simp [he, fallbackQ]
      · cases hpp : Json.parse (cleanJSON (jsStrOr t [])) with
        | some json => simp [he, hpp]
        | none => simp [he, hpp, fallbackQ]
  · intro history hc
    unfold generatePlacementQuestion
    rw [if_neg (by omega)]
    rfl

/-- Concrete witness for claim C3. -/
theorem placement_turns_counted_final_at_five_witness :
    (5 ≤ (hist5.filter (fun m => m.role == Role.user)).length ∧
      (generatePlacementQuestion hist5 (RemoteOutcome.failure "x".toList)).isFinished = true) ∧
    ((([] : List Message).filter (fun m => m.role == Role.user)).length < 5 ∧
      (generatePlacementQuestion [] (RemoteOutcome.failure "x".toList)).isFinished = false) ∧
    (generatePlacementQuestion [] (RemoteOutcome.success (some qPayload))).question =
      some (Json.str "Q next".toList) :=
  ⟨⟨by decide,
    (placement_turns_counted_final_at_five.1 hist5 (RemoteOutcome.failure "x".toList)
      (by decide)).1⟩,
   ⟨by decide,
    (placement_turns_counted_final_at_five.2.1 [] (RemoteOutcome.failure "x".toList)
      (by decide)).1⟩,
   placement_turns_counted_final_at_five.2.2.1 [] (by decide)⟩

/-- Claim C4: in practice mode every submit (with a topic set) issues exactly
one evaluation call; every evaluation result carries feedback and a truthy
next roleplay line; once the passed history holds five user turns the
Evaluator signals completion; and the controller then moves to the summary
view without appending a further roleplay line. -/
theorem practice_submit_one_call_completes_at_five :
    (∀ s env topic, s.mode = AppMode.PRACTICE → s.currentTopic = some topic →
        jsTrim s.transcript ≠ [] → s.processingRef = false →
        (handleSubmitAnswer s env).2.evalCalls = 1)
    ∧ (∀ topic history last lvl remote,
        (evaluateTurn topic history last lvl remote).feedback.advice.isSome = true ∧
        (evaluateTurn topic history last lvl remote).nextResponse.truthy = true)
    ∧ (∀ topic history last lvl remote,
        5 ≤ (history.filter (fun m => m.role == Role.user)).length →
        (evaluateTurn topic history last lvl remote).complete = true)
    ∧ (∀ s env topic, s.mode = AppMode.PRACTICE → s.currentTopic = some topic →
        jsTrim s.transcript ≠ [] → s.processingRef = false →
        4 ≤ (s.messages.filter (fun m => m.role == Role.user)).length →
        (handleSubmitAnswer s env).1.mode = AppMode.SUMMARY ∧
        (handleSubmitAnswer s env).1.messages =
          s.messages ++ [{ role := Role.user, text := jsTrim s.transcript }]) := by
  refine ⟨?_, ?_, ?_, ?_⟩
  · intro s env topic h1 h2 h3 h4
    rw [handleSubmitAnswer_run s env h3 h4, h1]
    rw [submitFinallyStep_trace]
    exact submitTryBody_practice_calls _ _ _ _ topic (by simp [submitEntryState, h2])
  · intro topic history last lvl remote
    unfold evaluateTurn
    by_cases hc : 5 ≤ (history.filter (fun m => m.role == Role.user)).length
    · rw [if_pos hc]
      exact ⟨rfl, rfl⟩
    · rw [if_neg hc]
      cases remote with
      | failure m => exact ⟨rfl, rfl⟩
      | success t =>
        dsimp only
        by_cases he : cleanJSON (jsStrOr t []) = []
        · rw [if_pos he]
          exact ⟨rfl, rfl⟩
        · rw [if_neg he]
          cases hpp : Json.parse (cleanJSON (jsStrOr t [])) with
          | none =>
            simp only [hpp]
            exact ⟨rfl, rfl⟩
          | some json =>
            simp only [hpp]
            exact ⟨rfl, jsOrOpt_truthy _ _ rfl⟩
  · intro topic history last lvl remote hc
    unfold evaluateTurn
    rw [if_pos hc]
  · intro s env topic h1 h2 h3 h4 h5
    rw [handleSubmitAnswer_run s env h3 h4, h1]
    have htopic : (submitEntryState s).currentTopic = some topic := by
      simp [submitEntryState, h2]
    have hcomplete : (evaluateTurn topic
        (s.messages ++ [{ role := Role.user, text := jsTrim s.transcript }])
        (jsTrim s.transcript) (submitEntryState s).userLevel env.remote).complete = true := by
      unfold evaluateTurn
      rw [if_pos (by rw [userTurns_append_user]; omega)]
    have hmode := submitFinallyStep_mode AppMode.PRACTICE
      (submitTryBody (submitEntryState s) AppMode.PRACTICE (jsTrim s.transcript)
        (s.messages ++ [{ role := Role.user, text := jsTrim s.transcript }]) env)
    have hbody := submitTryBody_practice_complete (submitEntryState s) (jsTrim s.transcript)
      (s.messages ++ [{ role := Role.user, text := jsTrim s.transcript }]) env topic htopic
      hcomplete
    constructor
    · rw [hmode.1, hbody.1]
    · rw [hmode.2, hbody.2]
      simp [submitEntryState]

/-- Concrete witness for claim C4. -/
theorem practice_submit_one_call_completes_at_five_witness :
    (c4state.mode = AppMode.PRACTICE ∧ jsTrim c4state.transcript ≠ [] ∧
      (handleSubmitAnswer c4state qEnv).2.evalCalls = 1) ∧
    (5 ≤ (hist5.filter (fun m => m.role == Role.user)).length ∧
      (evaluateTurn (fallbackTopic "A2".toList) hist5 "f".toList "A2".toList
        (RemoteOutcome.failure "x".toList)).complete = true) ∧
    (4 ≤ (c4state.messages.filter (fun m => m.role == Role.user)).length ∧
      (handleSubmitAnswer c4state qEnv).1.mode = AppMode.SUMMARY) :=
  ⟨⟨rfl, by decide,
    practice_submit_one_call_completes_at_five.1 c4state qEnv (fallbackTopic "A2".toList)
      rfl rfl (by decide) rfl⟩,
   ⟨by decide,
    practice_submit_one_call_completes_at_five.2.2.1 (fallbackTopic "A2".toList) hist5
      "f".toList "A2".toList (RemoteOutcome.failure "x".toList) (by decide)⟩,
   ⟨by decide,
    (practice_submit_one_call_completes_at_five.2.2.2 c4state qEnv (fallbackTopic "A2".toList)
      rfl rfl (by decide) rfl (by decide)).1⟩⟩

/-- Claim C5: every failure of the remote Evaluator — rejection (timeout or
thrown error) as well as a malformed or empty response payload — is
recovered locally at each call site with its deterministic
successful-shaped fallback: the canned question in placement question
generation, the default level (B1 on rejection or unparseable payload, A2
on an empty response, which defaults to the empty object) in placement
final evaluation, the canned topic in topic generation, and the generic
feedback with the neutral continuation line in turn evaluation.  The
service functions are total, so no failure propagates. -/
theorem evaluator_failures_recovered_locally :
    (∀ history m, (history.filter (fun mm => mm.role == Role.user)).length < 5 →
        generatePlacementQuestion history (RemoteOutcome.failure m) = fallbackQ)
    ∧ (∀ history m, 5 ≤ (history.filter (fun mm => mm.role == Role.user)).length →
        generatePlacementQuestion history (RemoteOutcome.failure m) =
          { question := none, isFinished := true, level := some (Json.str "B1".toList) })
    ∧ (∀ lvl m, generateDailyTopic lvl (RemoteOutcome.failure m) = fallbackTopic lvl)
    ∧ (∀ topic history last lvl m,
        (history.filter (fun mm => mm.role == Role.user)).length < 5 →
        evaluateTurn topic history last lvl (RemoteOutcome.failure m) = etFallback m)
    ∧ (∀ history t, (history.filter (fun mm => mm.role == Role.user)).length < 5 →
        Json.parse (cleanJSON (jsStrOr t [])) = none →
        generatePlacementQuestion history (RemoteOutcome.success t) = fallbackQ)
    ∧ (∀ history t, 5 ≤ (history.filter (fun mm => mm.role == Role.user)).length →
        Json.parse (cleanJSON (jsStrOr t emptyObjText)) = none →
        generatePlacementQuestion history (RemoteOutcome.success t) =
          { question := none, isFinished := true, level := some (Json.str "B1".toList) })
    ∧ (∀ lvl t, Json.parse (cleanJSON (jsStrOr t [])) = none →
        generateDailyTopic lvl (RemoteOutcome.success t) = fallbackTopic lvl)
    ∧ (∀ topic history last lvl t,
        (history.filter (fun mm => mm.role == Role.user)).length < 5 →
        Json.parse (cleanJSON (jsStrOr t [])) = none →
        evaluateTurn topic history last lvl (RemoteOutcome.success t) =
          etFallback (if cleanJSON (jsStrOr t []) = []
                      then "Error: Empty response".toList else "SyntaxError".toList))
    ∧ (∀ history, 5 ≤ (history.filter (fun mm => mm.role == Role.user)).length →
        generatePlacementQuestion history (RemoteOutcome.success none) =
          { question := none, isFinished := true, level := some (Json.str "A2".toList) } ∧
        generatePlacementQuestion history (RemoteOutcome.success (some [])) =
          { question := none, isFinished := true, level := some (Json.str "A2".toList) }) := by
  refine ⟨?_, ?_, ?_, ?_, ?_, ?_, ?_, ?_, ?_⟩
  · intro history m hc
    unfold generatePlacementQuestion
    rw [if_neg (by omega)]
  · intro history m hc
    unfold generatePlacementQuestion
    rw [if_pos (by omega)]
  · intro lvl m
    rfl
  · intro topic history last lvl m hc
    unfold evaluateTurn
    rw [if_neg (by omega)]
  · intro history t hc hp
    unfold generatePlacementQuestion
    rw [if_neg (by omega)]
    by_cases he : cleanJSON (jsStrOr t []) = []
    · simp [he]
    · simp [he, hp]
  · intro history t hc hp
    unfold generatePlacementQuestion
    rw [if_pos (by omega)]
    simp [hp]
  · intro lvl t hp
    unfold generateDailyTopic
    by_cases he : cleanJSON (jsStrOr t []) = []
    · simp [he]
    · simp [he, hp]
  · intro topic history last lvl t hc hp
    unfold evaluateTurn
    rw [if_neg (by omega)]
    by_cases he : cleanJSON (jsStrOr t []) = []
    · simp [he]
    · simp [he, hp]
  · intro history hc
    constructor
    · unfold generatePlacementQuestion
      rw [if_pos (by omega)]
      rfl
    · unfold generatePlacementQuestion
      rw [if_pos (by omega)]
      rfl

/-- Concrete witness for claim C5. -/
theorem evaluator_failures_recovered_locally_witness :
    ((c3start.messages.filter (fun mm => mm.role == Role.user)).length < 5 ∧
      generatePlacementQuestion c3start.messages (RemoteOutcome.failure "offline".toList) =
        fallbackQ) ∧
    (generateDailyTopic "B1".toList (RemoteOutcome.failure "offline".toList) =
      fallbackTopic "B1".toList) ∧
    (Json.parse (cleanJSON (jsStrOr (some "not json\x7b".toList) [])) = none ∧
      generatePlacementQuestion c3start.messages
        (RemoteOutcome.success (some "not json\x7b".toList)) = fallbackQ) ∧
    (evaluateTurn (fallbackTopic "A2".toList) c3start.messages "hi".toList "A2".toList
        (RemoteOutcome.success (some "not json\x7b".toList)) =
      etFallback (if cleanJSON (jsStrOr (some "not json\x7b".toList) []) = []
                  then "Error: Empty response".toList else "SyntaxError".toList)) ∧
    (5 ≤ (hist5.filter (fun mm => mm.role == Role.user)).length ∧
      generatePlacementQuestion hist5 (RemoteOutcome.success none) =
        { question := none, isFinished := true, level := some (Json.str "A2".toList) }) :=
  ⟨⟨by decide,
    evaluator_failures_recovered_locally.1 c3start.messages "offline".toList (by decide)⟩,
   evaluator_failures_recovered_locally.2.2.1 "B1".toList "offline".toList,
   ⟨rfl,
    evaluator_failures_recovered_locally.2.2.2.2.1 c3start.messages
      (some "not json\x7b".toList) (by decide) rfl⟩,
   evaluator_failures_recovered_locally.2.2.2.2.2.2.2.1 (fallbackTopic "A2".toList)
     c3start.messages "hi".toList "A2".toList (some "not json\x7b".toList) (by decide) rfl,
   ⟨by decide,
    (evaluator_failures_recovered_locally.2.2.2.2.2.2.2.2 hist5 (by decide)).1⟩⟩

/-- Claim C6, counterexample: on a payload holding two object-shaped
substrings separated by junk, `cleanJSON` does not extract the first
well-formed object-shaped substring — the greedy regex grabs from the first
opening brace to the last closing brace, yielding an unparseable string. -/
theorem cleanJSON_not_first_wellformed :
    Json.parse c6raw = none ∧
    firstWellFormedObj c6raw = some "\x7b\"a\":1\x7d".toList ∧
    cleanJSON c6raw = "\x7b\"a\":1\x7dy\x7b\"b\":2\x7d".toList ∧
    cleanJSON c6raw ≠ "\x7b\"a\":1\x7d".toList ∧
    Json.parse (cleanJSON c6raw) = none :=
  ⟨rfl, rfl, by decide, by decide, rfl⟩

/-- Claim C6, amended: a payload that parses as strict JSON is used as-is;
otherwise `cleanJSON` substitutes the maximal brace-delimited span (first
opening brace to last closing brace) when one exists; total parse failure of
the cleaned payload is handled by the local fallback of the call site. -/
theorem cleanJSON_strict_or_brace_span :
    (∀ t v, Json.parse t = some v → cleanJSON t = t)
    ∧ (∀ t, Json.parse t = none → cleanJSON t = (braceSpan t).getD t)
    ∧ (∀ topic history last lvl t,
        (history.filter (fun m => m.role == Role.user)).length < 5 →
        Json.parse (cleanJSON (jsStrOr t [])) = none →
        ∃ m, evaluateTurn topic history last lvl (RemoteOutcome.success t) = etFallback m) := by
  refine ⟨?_, ?_, ?_⟩
  · intro t v h
    unfold cleanJSON
    rw [h]
  · intro t h
    unfold cleanJSON
    rw [h]
    cases braceSpan t <;> simp
  · intro topic history last lvl t hc hp
    unfold evaluateTurn
    rw [if_neg (by omega)]
    by_cases he : cleanJSON (jsStrOr t []) = []
    · exact ⟨"Error: Empty response".toList, by simp [he]⟩
    · exact ⟨"SyntaxError".toList, by simp [he, hp]⟩

def c6bad : List Char := "not json at all".toList

/-- Concrete witness for claim C6. -/
theorem cleanJSON_strict_or_brace_span_witness :
    Json.parse c6bad = none ∧
    cleanJSON c6bad = (braceSpan c6bad).getD c6bad ∧
    ((c3start.messages.filter (fun m => m.role == Role.user)).length < 5 ∧
      ∃ m, evaluateTurn (fallbackTopic "A2".toList) c3start.messages "hi".toList "A2".toList
        (RemoteOutcome.success (some c6bad)) = etFallback m) :=
  ⟨rfl, cleanJSON_strict_or_brace_span.2.1 c6bad rfl,
   by decide,
   cleanJSON_strict_or_brace_span.2.2 (fallbackTopic "A2".toList) c3start.messages
     "hi".toList "A2".toList (some c6bad) (by decide) rfl⟩

def c7state : AppState := { c3start with transcript := "hi".toList }

def c7env : SubmitEnv := { remote := RemoteOutcome.failure "offline".toList, ttsOk := false }

/-- Claim C7: `speakText` returns whether speech synthesis was successfully
initiated (true exactly when the text is truthy and queueing does not
throw); when the submission ends with speech not started and the captured
mode is not the dashboard, the state falls back to Idle; and when the
start-grace timeout handler runs (no start confirmation cleared it within
the 2000 ms window) with its captured state not Speaking, the next state is
Idle. -/
theorem speak_failure_falls_back_idle :
    (∀ ttsOk text, speakText ttsOk text = true ↔ (text.truthy = true ∧ ttsOk = true))
    ∧ (∀ s env, jsTrim s.transcript ≠ [] → s.processingRef = false →
        s.mode ≠ AppMode.DASHBOARD →
        (handleSubmitAnswer s env).2.speechStarted = false →
        (handleSubmitAnswer s env).1.speakingState = SpeakingState.IDLE)
    ∧ (∀ init events t0 captured,
        events (t0 + TTS_START_GRACE_MS) = RunEv.ttsStartGrace captured →
        captured ≠ SpeakingState.SPEAKING →
        (runFrom init events (t0 + TTS_START_GRACE_MS + 1)).speakingState =
          SpeakingState.IDLE) := by
  refine ⟨?_, ?_, ?_⟩
  · intro ttsOk text
    unfold speakText
    by_cases h : text.truthy = true
    · simp [h]
    · simp [h]
  · intro s env h1 h2 h3 hsp
    rw [handleSubmitAnswer_run s env h1 h2] at hsp ⊢
    rw [submitFinallyStep_trace] at hsp
    exact submitFinallyStep_speaking_idle _ _ hsp h3
  · intro init events t0 captured hev hcap
    have hstep : runFrom init events (t0 + TTS_START_GRACE_MS + 1) =
        applyHandler (runFrom init events (t0 + TTS_START_GRACE_MS))
          (events (t0 + TTS_START_GRACE_MS)) := rfl
    rw [hstep, hev]
    simp [applyHandler, hcap]

/-- Concrete witness for claim C7. -/
theorem speak_failure_falls_back_idle_witness :
    jsTrim c7state.transcript ≠ [] ∧
    (handleSubmitAnswer c7state c7env).2.speechStarted = false ∧
    (handleSubmitAnswer c7state c7env).1.speakingState = SpeakingState.IDLE :=
  ⟨by decide, by decide,
   speak_failure_falls_back_idle.2.1 c7state c7env (by decide) rfl (by decide) (by decide)⟩

/-- Claim C8, counterexample: `retakeAssessment` does not clear the
conversation history — a non-empty history survives it unchanged. -/
theorem retakeAssessment_keeps_history :
    (retakeAssessment c8state).messages = c8state.messages ∧ c8state.messages ≠ [] :=
  ⟨rfl, by decide⟩

/-- Claim C8, amended: the retake-assessment operation clears the persisted
CEFR level (and resets the in-memory level to A2) and returns the
application to the landing view; the conversation history is left unchanged
(it is cleared only when a new session starts). -/
theorem retakeAssessment_clears_level_returns_landing (s : AppState) :
    (retakeAssessment s).storageLevel = none ∧
    (retakeAssessment s).userLevel = "A2".toList ∧
    (retakeAssessment s).mode = AppMode.LANDING ∧
    (retakeAssessment s).showLevelSelector = false ∧
    (retakeAssessment s).messages = s.messages :=
  ⟨rfl, rfl, rfl, rfl, rfl⟩

/-- Claim C9: saving a non-empty level and reading the persisted value at a
fresh startup yields the same level and starts the application on the
dashboard view; an absent persisted level starts it on the landing view
with the default level. -/
theorem level_save_load_roundtrip (lvl : List Char) (s : AppState) (h : lvl ≠ []) :
    (saveLevel lvl s).storageLevel = some lvl ∧
    (saveLevel lvl s).userLevel = lvl ∧
    (startup (some lvl)).userLevel = lvl ∧
    (startup (some lvl)).mode = AppMode.DASHBOARD ∧
    (startup none).mode = AppMode.LANDING ∧
    (startup none).userLevel = "A2".toList := by
  refine ⟨rfl, rfl, ?_, ?_, rfl, rfl⟩ <;>
    simp [startup, loadLevelEffect, initialAppState, h]

/-- Concrete witness for claim C9. -/
theorem level_save_load_roundtrip_witness :
    ("C1".toList ≠ ([] : List Char)) ∧
    (startup (some "C1".toList)).userLevel = "C1".toList ∧
    (startup (some "C1".toList)).mode = AppMode.DASHBOARD :=
  ⟨by decide,
   (level_save_load_roundtrip "C1".toList c3start (by decide)).2.2.1,
   (level_save_load_roundtrip "C1".toList c3start (by decide)).2.2.2.1⟩

/-- Claim C10: submitting with an empty or whitespace-only transcript is a
complete no-op — the state (including the transcript itself), the mode and
the guard are untouched, no message is appended and no Evaluator call is
issued. -/
theorem submit_blank_transcript_noop (s : AppState) (env : SubmitEnv)
    (h : jsTrim s.transcript = []) :
    handleSubmitAnswer s env = (s, { evalCalls := 0, speechStarted := false }) := by
  unfold handleSubmitAnswer
  simp [h]

/-- Concrete witness for claim C10. -/
theorem submit_blank_transcript_noop_witness :
    jsTrim c10state.transcript = [] ∧
    handleSubmitAnswer c10state c2env = (c10state, { evalCalls := 0, speechStarted := false }) :=
  ⟨by decide, submit_blank_transcript_noop c10state c2env (by decide)⟩

end FluentFlow
